import Mathlib

set_option autoImplicit false
set_option linter.unnecessarySeqFocus false

/-! Shallow embedding of the thread-sharing queue element of this repository.

Two variants are embedded:

* namespace `Legacy`: the `DataQueue` of `src/gst-plugin-threadshare/src/queue.rs`
  (its state machine, `push`, the `poll` of `impl Stream for DataQueue`, `clear`).
* namespace `TS`: the `Queue` element of `src/generic/threadshare/src/queue.rs`
  (`queue_until_full`, the drain loop of `schedule_pending_queue`, `enqueue_item`,
  `stop`, and the forwarding-outcome handling inside `start_task`). The `DataQueue`
  this variant consumes comes from `dataqueue.rs`, a file of the repository that is
  not among the provided sources; that part is modelled from the spec and each such
  definition says so in its doc comment.

Opaque GStreamer handles (pads, task handles, the element) are modelled by what the
embedded code observes of them: a registered `task::Task` wake-up handle becomes the
Bool fact that a handle is registered, the source pad becomes the list of events
stored on it, downstream forwarding outcomes are inputs. Machine integers: `u32` and
`u64` additions are taken modulo `2 ^ 32` and `2 ^ 64` at the points where the Rust
source performs them; the `u32` subtractions in `poll` act on totals that always
contain the contributions being removed, so they are plain `Nat` subtraction. -/

/-- One media buffer, reduced to what the queue code reads of it: its byte size
(`get_size`), its decode-or-presentation timestamp (`get_dts_or_pts`) and its
duration (`get_duration`). -/
structure Buf where
  size : Nat
  dts_or_pts : Option Nat
  duration : Option Nat
deriving DecidableEq, Repr

/-- The type tag of a control event as far as the queue code inspects it via
`get_type`: segment, end-of-stream, caps, or any other event type. -/
inductive EvType
  | segment
  | eos
  | caps
  | other (code : Nat)
deriving DecidableEq, Repr

/-- A control event: its stickiness (`is_sticky`) and its type tag. -/
structure Ev where
  sticky : Bool
  etype : EvType
deriving DecidableEq, Repr

/-- `DataQueueItem` of both variants: a buffer, a buffer list or an event. -/
inductive DataQueueItem
  | buffer (b : Buf)
  | bufferList (l : List Buf)
  | event (e : Ev)
deriving DecidableEq, Repr

/-- Reduction of a `u32` value modulo its width. -/
def u32 (n : Nat) : Nat := n % 2 ^ 32

/-- Reduction of a `u64` value modulo its width. -/
def u64 (n : Nat) : Nat := n % 2 ^ 64

/-- `DataQueueItem::size`: the pair (item-count contribution, byte-size
contribution); a buffer counts 1 and its size, a list counts its length and the
sum of its buffer sizes (`u32` arithmetic), an event counts nothing. -/
def DataQueueItem.size : DataQueueItem → Nat × Nat
  | .buffer b => (1, u32 b.size)
  | .bufferList l => (u32 l.length, u32 (l.map Buf.size).sum)
  | .event _ => (0, 0)

/-- `DataQueueItem::timestamp`: the first dts-or-pts the item carries. -/
def DataQueueItem.timestamp : DataQueueItem → Option Nat
  | .buffer b => b.dts_or_pts
  | .bufferList l => (l.filterMap Buf.dts_or_pts).head?
  | .event _ => none

/-- `DataQueueItem::timestamp_end`: dts-or-pts plus duration (`u64` addition);
for a list, the last buffer carrying a timestamp; events carry none. -/
def DataQueueItem.timestamp_end : DataQueueItem → Option Nat
  | .buffer b => b.dts_or_pts.map (fun ts => u64 (ts + b.duration.getD 0))
  | .bufferList l =>
      (l.filterMap (fun b => b.dts_or_pts.map (fun ts => u64 (ts + b.duration.getD 0)))).getLast?
  | .event _ => none

namespace Legacy

/-- `DataQueueState` of the legacy variant. -/
inductive DataQueueState
  | Unscheduled
  | Scheduled
  | Running
  | Shutdown
deriving DecidableEq, Repr

/-- `DataQueueInner` of the legacy variant. The two `task::Task` fields hold
wake-up handles; here each is the Bool fact that a handle is registered. The
`element` and `shutdown_receiver` fields are runtime glue and carry no state the
embedded operations read. -/
structure DataQueueInner where
  state : DataQueueState
  queue : List DataQueueItem
  cur_size_buffers : Nat
  cur_size_bytes : Nat
  max_size_buffers : Option Nat
  max_size_bytes : Option Nat
  max_size_time : Option Nat
  current_task : Bool
  current_task_in : Bool
deriving DecidableEq, Repr

/-- `DataQueue::new` from the three settings, a zero meaning unlimited. -/
def DataQueue.new (max_size_buffers max_size_bytes max_size_time : Nat) : DataQueueInner where
  state := .Unscheduled
  queue := []
  cur_size_buffers := 0
  cur_size_bytes := 0
  max_size_buffers := if max_size_buffers = 0 then none else some max_size_buffers
  max_size_bytes := if max_size_bytes = 0 then none else some max_size_bytes
  max_size_time := if max_size_time = 0 then none else some max_size_time
  current_task := false
  current_task_in := false

/-- `DataQueue::push` of the legacy variant: the three limits are checked in
order (buffers, bytes, time); on any hit the producer wake-up handle is
registered and the push returns false; otherwise the item is appended, its
contributions are added to the running totals (`u32` additions) and the consumer
wake-up handle is taken and notified. -/
def DataQueue.push (inner : DataQueueInner) (item : DataQueueItem) :
    Bool × DataQueueInner :=
  let count := item.size.1
  let bytes := item.size.2
  let ts_end := item.timestamp_end
  let ts := (inner.queue.filterMap DataQueueItem.timestamp).head?
  if (match inner.max_size_buffers with
      | some max => decide (max ≤ u32 (inner.cur_size_buffers + count))
      | none => false) then
    (false, { inner with current_task_in := true })
  else if (match inner.max_size_bytes with
      | some max => decide (max ≤ u32 (inner.cur_size_bytes + bytes))
      | none => false) then
    (false, { inner with current_task_in := true })
  else if (match inner.max_size_time, ts, ts_end with
      | some max, some t, some te =>
          decide (max ≤ (if te < t then t - te else te - t))
      | _, _, _ => false) then
    (false, { inner with current_task_in := true })
  else
    (true, { inner with
      queue := inner.queue ++ [item],
      cur_size_buffers := u32 (inner.cur_size_buffers + count),
      cur_size_bytes := u32 (inner.cur_size_bytes + bytes),
      current_task := false })

/-- Outcome of one `poll` of `impl Stream for DataQueue`. -/
inductive PollResult
  | readyNone
  | notReady
  | readyItem (item : DataQueueItem)
deriving DecidableEq, Repr

/-- `poll` of `impl Stream for DataQueue`: `none` stands for the
`assert_eq!` panic reached in the `Unscheduled` state; `readyNone` for
`Ok(Async::Ready(None))`; `notReady` for `Ok(Async::NotReady)` with the consumer
wake-up handle registered; `readyItem` for `Ok(Async::Ready(Some(item)))`, which
removes the front item, subtracts its contributions from the running totals and
takes and notifies the producer wake-up handle. -/
def DataQueue.poll (inner : DataQueueInner) : Option (PollResult × DataQueueInner) :=
  if inner.state = .Shutdown then
    some (.readyNone, inner)
  else if inner.state = .Scheduled then
    some (.notReady, { inner with current_task := true })
  else if inner.state = .Running then
    match inner.queue with
    | [] => some (.notReady, { inner with current_task := true })
    | item :: rest =>
        some (.readyItem item,
          { inner with
            queue := rest,
            cur_size_buffers := inner.cur_size_buffers - item.size.1,
            cur_size_bytes := inner.cur_size_bytes - item.size.2,
            current_task_in := false })
  else
    none

/-- Body of the drain loop of the legacy `DataQueue::clear`: an event that
`is_sticky` and whose type is neither segment nor end-of-stream is stored as a
sticky event on the source pad (modelled as appending to the list of events the
pad holds); every other item is discarded. -/
def clearStorePad (pad : List Ev) (item : DataQueueItem) : List Ev :=
  match item with
  | DataQueueItem.event e =>
      if e.sticky && !decide (e.etype = EvType.segment)
          && !decide (e.etype = EvType.eos) then
        pad ++ [e]
      else
        pad
  | _ => pad

/-- `DataQueue::clear`: every queued item is drained through `clearStorePad`.
Exactly as in the source, the running totals are not touched. -/
def DataQueue.clear (inner : DataQueueInner) (src_pad : List Ev) :
    DataQueueInner × List Ev :=
  ({ inner with queue := [] }, inner.queue.foldl clearStorePad src_pad)

end Legacy

namespace TS

/-- Run state of the `DataQueue` of the `generic/threadshare` variant, per the
spec a three-state flag: not-running, running, shut-down. -/
inductive MDQState
  | notRunning
  | running
  | stopped
deriving DecidableEq, Repr

/-- Modelled from the spec: the `DataQueue` consumed by
`src/generic/threadshare/src/queue.rs` lives in `dataqueue.rs`, a file of the
repository that is not among the provided sources. Per the data-model section it
is an ordered sequence of items plus running totals of item count and byte size,
three optional limits, and the three-state run flag. -/
structure DataQueue where
  st : MDQState
  queue : List DataQueueItem
  cur_size_buffers : Nat
  cur_size_bytes : Nat
  max_size_buffers : Option Nat
  max_size_bytes : Option Nat
  max_size_time : Option Nat
deriving DecidableEq, Repr

/-- Modelled from the spec: `push(item) -> Result<(), item>` fails, returning the
item, iff admitting it would exceed any configured, non-zero limit, except that a
currently empty queue always accepts; the time-span check needs both the oldest
queued start timestamp and the candidate end timestamp and is skipped when either
is absent. On success the item is appended and the running totals grow by its
contributions. -/
def DataQueue.push (dq : DataQueue) (item : DataQueueItem) :
    Except DataQueueItem DataQueue :=
  let count := item.size.1
  let bytes := item.size.2
  let overBuffers :=
    match dq.max_size_buffers with
    | some max => decide (max < dq.cur_size_buffers + count)
    | none => false
  let overBytes :=
    match dq.max_size_bytes with
    | some max => decide (max < dq.cur_size_bytes + bytes)
    | none => false
  let overTime :=
    match dq.max_size_time, (dq.queue.filterMap DataQueueItem.timestamp).head?,
        item.timestamp_end with
    | some max, some t, some te => decide (max < (if te < t then t - te else te - t))
    | _, _, _ => false
  if dq.queue.isEmpty || (!overBuffers && !overBytes && !overTime) then
    Except.ok { dq with
      queue := dq.queue ++ [item],
      cur_size_buffers := dq.cur_size_buffers + count,
      cur_size_bytes := dq.cur_size_bytes + bytes }
  else
    Except.error item

/-- Modelled from the spec: `pause` moves a running queue to not-running and is a
no-op otherwise. -/
def DataQueue.pause (dq : DataQueue) : DataQueue :=
  if dq.st = .running then { dq with st := .notRunning } else dq

/-- Modelled from the spec: `clear` empties the queue (the forwarding of sticky
events goes to the pad, outside this structure) and its running totals. -/
def DataQueue.clear (dq : DataQueue) : DataQueue :=
  { dq with queue := [], cur_size_buffers := 0, cur_size_bytes := 0 }

/-- Modelled from the spec: `stop` shuts the queue down, after which `pop`
yields only the shutdown signal. -/
def DataQueue.stop (dq : DataQueue) : DataQueue :=
  { dq with st := .stopped }

/-- `PendingQueue` of `src/generic/threadshare/src/queue.rs`: the oneshot
`more_queue_space_sender` is modelled by the Bool fact that a sender is
registered. -/
structure PendingQueue where
  more_queue_space_sender : Bool
  scheduled : Bool
  items : List DataQueueItem
deriving DecidableEq, Repr

/-- `PendingQueue::notify_more_queue_space`: take and drop the sender, which
completes the receiver side. -/
def PendingQueue.notify_more_queue_space (pq : PendingQueue) : PendingQueue :=
  { pq with more_queue_space_sender := false }

/-- The `gst::FlowError` values the queue distinguishes. -/
inductive FlowErr
  | flushing
  | eos
  | other (code : Nat)
deriving DecidableEq, Repr

/-- `Result<gst::FlowSuccess, gst::FlowError>` as the queue stores and returns it. -/
inductive FlowRes
  | ok
  | err (e : FlowErr)
deriving DecidableEq, Repr

/-- The `Queue` element state of `src/generic/threadshare/src/queue.rs`: the
optional `DataQueue`, the optional pending (overflow) queue, the last forwarding
result, and the run flag of the drain `Task`. The two pads carry no state the
embedded operations read. -/
structure Queue where
  dataqueue : Option DataQueue
  pending_queue : Option PendingQueue
  last_res : FlowRes
  task_running : Bool
deriving DecidableEq, Repr

/-- The `while let Some(item) = items.pop_front()` loop shared by
`Queue::queue_until_full` and the drain cycle of `Queue::schedule_pending_queue`:
every pending item is popped and pushed into the `DataQueue`; a failed push
leaves the item in `failed_item`, overwriting any previously failed item, and the
loop keeps going. Returns the updated queue and the last failed item, if any. -/
def drainPendingItems (dq : DataQueue) (items : List DataQueueItem) :
    DataQueue × Option DataQueueItem :=
  items.foldl
    (fun acc it =>
      match DataQueue.push acc.1 it with
      | .ok dq2 => (dq2, acc.2)
      | .error it2 => (acc.1, some it2))
    (dq, none)

/-- `Queue::queue_until_full`: with no pending queue, plain push; with an
unscheduled pending queue, first drain its items (re-installing the last failed
one at the front), then push the current item only if the drain fully emptied
the pending queue; with a scheduled pending queue, fail immediately. The third
component is the item handed back on failure. -/
def Queue.queue_until_full (dq : DataQueue) (pending_queue : Option PendingQueue)
    (item : DataQueueItem) : DataQueue × Option PendingQueue × Option DataQueueItem :=
  match pending_queue with
  | none =>
      match DataQueue.push dq item with
      | .ok dq2 => (dq2, none, none)
      | .error it => (dq, none, some it)
  | some p =>
      if p.scheduled then
        (dq, some p, some item)
      else
        let res := drainPendingItems dq p.items
        match res.2 with
        | some failed => (res.1, some { p with items := [failed] }, some item)
        | none =>
            match DataQueue.push res.1 item with
            | .ok dq2 => (dq2, some { p with items := [] }, none)
            | .error it => (res.1, some { p with items := [] }, some it)

/-- What `Queue::enqueue_item` does up to any suspension: `noQueue` is the early
fatal `FlowError::Error` return taken when no `DataQueue` exists; `immediate res`
is a return of `res` without blocking; `blocked` means a pending-queue drain was
scheduled by this very call and the caller suspends on its future before reading
the last forwarding result. -/
inductive EnqueueOutcome
  | noQueue
  | immediate (res : FlowRes)
  | blocked
deriving DecidableEq, Repr

/-- The schedule-now decision of `Queue::enqueue_item`: a control event other
than end-of-stream defers scheduling; buffers, buffer lists and end-of-stream
events schedule the overflow drain in the same call. -/
def scheduleNow (item : DataQueueItem) : Bool :=
  match item with
  | DataQueueItem.event ev => decide (ev.etype = EvType.eos)
  | _ => true

/-- `Queue::enqueue_item` up to its suspension point: try `queue_until_full`; on
failure, either append the item to an (possibly fresh) unscheduled pending queue
and decide from the item kind whether to schedule the drain now (suspending the
caller) or to defer, or, when a drain is already scheduled, just append the item
and return without blocking. The scheduled test mirrors the
`as_ref().map(..).unwrap_or(true)` of the source. -/
def Queue.enqueue_item (s : Queue) (item : DataQueueItem) : Queue × EnqueueOutcome :=
  match s.dataqueue with
  | none => (s, .noQueue)
  | some dq =>
      match Queue.queue_until_full dq s.pending_queue item with
      | (dq2, pq2, none) =>
          ({ s with dataqueue := some dq2, pending_queue := pq2 }, .immediate s.last_res)
      | (dq2, pq2, some failed) =>
          if (pq2.map (fun pq => !pq.scheduled)).getD true then
            let pq3 := pq2.getD
              { more_queue_space_sender := false, scheduled := false, items := [] }
            let pq4 := { pq3 with items := pq3.items ++ [failed] }
            if scheduleNow failed then
              ({ s with
                  dataqueue := some dq2,
                  pending_queue := some { pq4 with scheduled := true } }, .blocked)
            else
              ({ s with dataqueue := some dq2, pending_queue := some pq4 },
               .immediate s.last_res)
          else
            ({ s with
                dataqueue := some dq2,
                pending_queue := pq2.map (fun pq => { pq with items := pq.items ++ [failed] }) },
             .immediate s.last_res)

/-- Whether one iteration of the drain loop of `Queue::schedule_pending_queue`
returns (the future completes) or suspends on a fresh space-available receiver. -/
inductive DrainStep
  | returned
  | waiting
deriving DecidableEq, Repr

/-- One iteration of the loop inside `Queue::schedule_pending_queue`: return if
the `DataQueue` is gone; return, dropping nothing more, if the pending queue is
gone (flushing); otherwise drain the pending items into the `DataQueue`,
re-install the last failed item at the front and suspend on a fresh
space-available sender, or, if nothing failed, drop the pending queue and
return. -/
def Queue.pending_drain_iter (s : Queue) : Queue × DrainStep :=
  match s.dataqueue with
  | none => (s, .returned)
  | some dq =>
      match s.pending_queue with
      | none => (s, .returned)
      | some pq =>
          let res := drainPendingItems dq pq.items
          match res.2 with
          | some failed =>
              ({ s with
                  dataqueue := some res.1,
                  pending_queue := some { pq with
                                          items := [failed],
                                          more_queue_space_sender := true } },
               .waiting)
          | none =>
              ({ s with dataqueue := some res.1, pending_queue := none }, .returned)

/-- Effect of handling one forwarding outcome inside `Queue::start_task`: the new
element state, whether the loop continues (`glib::Continue`), whether an
end-of-stream event was pushed downstream, and whether an element-level fatal
stream error was posted. -/
structure TaskIterEffect where
  queue : Queue
  cont : Bool
  pushed_eos : Bool
  element_error : Bool
deriving DecidableEq, Repr

/-- The forwarding-outcome match inside `Queue::start_task`: success records
success and continues; flushing records flushing and stops; end-of-stream
records end-of-stream, pushes an end-of-stream event downstream and stops; any
other error posts an element-level fatal stream error, records the error and
stops. -/
def Queue.handle_item_res (s : Queue) (res : FlowRes) : TaskIterEffect :=
  match res with
  | .ok =>
      { queue := { s with last_res := .ok }, cont := true,
        pushed_eos := false, element_error := false }
  | .err .flushing =>
      { queue := { s with last_res := .err .flushing }, cont := false,
        pushed_eos := false, element_error := false }
  | .err .eos =>
      { queue := { s with last_res := .err .eos }, cont := false,
        pushed_eos := true, element_error := false }
  | .err (.other c) =>
      { queue := { s with last_res := .err (.other c) }, cont := false,
        pushed_eos := false, element_error := true }

/-- `Queue::stop`: set the last forwarding result to flushing, stop the drain
task, pause + clear + stop the `DataQueue` when one exists, and take the pending
queue, dropping any registered space-available sender with it. -/
def Queue.stop (s : Queue) : Queue :=
  { s with
    last_res := .err .flushing,
    task_running := false,
    dataqueue := s.dataqueue.map (fun dq => ((dq.pause).clear).stop),
    pending_queue := none }

end TS


-- Concrete inputs used by the claim theorems, witnesses and counterexamples.

/-- A plain 10-byte buffer without timestamps. -/
def bufTen : DataQueueItem := DataQueueItem.buffer ⟨10, none, none⟩

/-- A plain 20-byte buffer without timestamps. -/
def bufTwenty : DataQueueItem := DataQueueItem.buffer ⟨20, none, none⟩

/-- The buffer already held by the full bounded queue of the drain scenario. -/
def c1_bufQ : DataQueueItem := DataQueueItem.buffer ⟨3, none, none⟩

/-- First overflow buffer of the drain scenario. -/
def c1_bufA : DataQueueItem := DataQueueItem.buffer ⟨1, none, none⟩

/-- Second overflow buffer of the drain scenario. -/
def c1_bufB : DataQueueItem := DataQueueItem.buffer ⟨2, none, none⟩

/-- A bounded queue with max-size-buffers 1 that already holds one buffer, so
every further buffer push fails. -/
def c1_dataqueue : TS.DataQueue :=
  { st := .running, queue := [c1_bufQ], cur_size_buffers := 1, cur_size_bytes := 3,
    max_size_buffers := some 1, max_size_bytes := none, max_size_time := none }

/-- Element state of the drain scenario: full bounded queue, two buffers staged
on the scheduled pending queue. -/
def c1_state : TS.Queue :=
  { dataqueue := some c1_dataqueue,
    pending_queue := some { more_queue_space_sender := false, scheduled := true,
                            items := [c1_bufA, c1_bufB] },
    last_res := .ok,
    task_running := true }

/-- A sticky caps event, not end-of-stream. -/
def c6_event : DataQueueItem := DataQueueItem.event ⟨true, .caps⟩

/-- Element state with a full bounded queue and an unscheduled pending queue
holding one stuck buffer, so `queue_until_full` fails for any further item. -/
def c6_state : TS.Queue :=
  { dataqueue := some c1_dataqueue,
    pending_queue := some { more_queue_space_sender := false, scheduled := false,
                            items := [c1_bufA] },
    last_res := .ok,
    task_running := true }

/-- Element state before `prepare` or after `unprepare`: no bounded queue. -/
def c10_state : TS.Queue :=
  { dataqueue := none, pending_queue := none, last_res := .ok, task_running := false }

/-- The legacy queue state reached by pushing one 10-byte buffer into a fresh
queue limited to 2 buffers and then clearing it. -/
def c9_state : Legacy.DataQueueInner :=
  (Legacy.DataQueue.clear
    (Legacy.DataQueue.push (Legacy.DataQueue.new 2 0 0) bufTen).2 []).1

/-- The events the spec says a clear must preserve: sticky, not segment, not
end-of-stream; everything else is dropped. -/
def stickySurvivor (item : DataQueueItem) : Option Ev :=
  match item with
  | DataQueueItem.event e =>
      if e.sticky = true ∧ e.etype ≠ EvType.segment ∧ e.etype ≠ EvType.eos then
        some e
      else none
  | _ => none

-- Helper lemmas

/-- Both components of an item size fit in a `u32`. -/
theorem DataQueueItem.size_lt_u32 (item : DataQueueItem) :
    item.size.1 < 2 ^ 32 ∧ item.size.2 < 2 ^ 32 := by
  cases item with
  | buffer b =>
      exact ⟨by norm_num [DataQueueItem.size], Nat.mod_lt _ (by norm_num)⟩
  | bufferList l =>
      exact ⟨Nat.mod_lt _ (by norm_num), Nat.mod_lt _ (by norm_num)⟩
  | event e =>
      exact ⟨by norm_num [DataQueueItem.size], by norm_num [DataQueueItem.size]⟩

/-- The fold of the legacy `DataQueue::clear` over the queued items appends to
the pad exactly the sticky events that are neither segment nor end-of-stream. -/
theorem clear_foldl_filterMap (q : List DataQueueItem) (pad : List Ev) :
    q.foldl Legacy.clearStorePad pad = pad ++ q.filterMap stickySurvivor := by
  induction q generalizing pad with
  | nil => simp
  | cons i t ih =>
      rw [List.foldl_cons, List.filterMap_cons]
      cases i with
      | buffer b => rw [ih]; simp [Legacy.clearStorePad, stickySurvivor]
      | bufferList l => rw [ih]; simp [Legacy.clearStorePad, stickySurvivor]
      | event e =>
          by_cases hs : e.sticky = true ∧ e.etype ≠ EvType.segment ∧ e.etype ≠ EvType.eos
          · have hcond : (e.sticky && !decide (e.etype = EvType.segment)
                && !decide (e.etype = EvType.eos)) = true := by
              simp [hs.1, hs.2.1, hs.2.2]
            rw [show Legacy.clearStorePad pad (DataQueueItem.event e) = pad ++ [e] by
                  simp [Legacy.clearStorePad, hcond],
                show stickySurvivor (DataQueueItem.event e) = some e by
                  simp [stickySurvivor, hs],
                ih]
            simp
          · have hcond : (e.sticky && !decide (e.etype = EvType.segment)
                && !decide (e.etype = EvType.eos)) = false := by
              rcases not_and_or.mp hs with h | h
              · simp [Bool.not_eq_true] at h
                simp [h]
              · rcases not_and_or.mp h with h2 | h2 <;> simp [not_not.mp h2]
            rw [show Legacy.clearStorePad pad (DataQueueItem.event e) = pad by
                  simp [Legacy.clearStorePad, hcond],
                show stickySurvivor (DataQueueItem.event e) = none by
                  simp [stickySurvivor, hs],
                ih]

/-- On a successful push, the new item-count total is the u32 sum of the old
total and the item contribution. -/
theorem push_true_cur_size_buffers (inner : Legacy.DataQueueInner) (item : DataQueueItem)
    (h : (Legacy.DataQueue.push inner item).1 = true) :
    (Legacy.DataQueue.push inner item).2.cur_size_buffers
      = u32 (inner.cur_size_buffers + item.size.1) := by
  simp only [Legacy.DataQueue.push] at h ⊢
  split_ifs at h ⊢ <;> simp_all

/-- Claim C2, counterexample: with limits buffers=2, bytes=0, time=0 a first
10-byte buffer is accepted directly, but the second buffer, whose admission
would bring the item-count total exactly to the configured limit 2, is rejected
by `DataQueue::push` — contradicting both the claimed success of a push that
reaches a limit exactly and the scenario in which buffers A and B both enter
directly. -/
theorem C2_push_at_limit_counterexample :
    (Legacy.DataQueue.push (Legacy.DataQueue.new 2 0 0) bufTen).1 = true ∧
    (Legacy.DataQueue.push
      (Legacy.DataQueue.push (Legacy.DataQueue.new 2 0 0) bufTen).2 bufTwenty).1 = false := by
  decide

/-- Characterization of a successful legacy push: every configured check must
pass strictly, a total that would merely reach a limit already rejects. -/
theorem push_true_iff (inner : Legacy.DataQueueInner) (item : DataQueueItem) :
    (Legacy.DataQueue.push inner item).1 = true ↔
      (∀ m, inner.max_size_buffers = some m →
        u32 (inner.cur_size_buffers + item.size.1) < m) ∧
      (∀ m, inner.max_size_bytes = some m →
        u32 (inner.cur_size_bytes + item.size.2) < m) ∧
      (∀ m t te, inner.max_size_time = some m →
        (inner.queue.filterMap DataQueueItem.timestamp).head? = some t →
        item.timestamp_end = some te →
        (if te < t then t - te else te - t) < m) := by
  rcases hb : inner.max_size_buffers with _ | mb <;>
    rcases hy : inner.max_size_bytes with _ | my <;>
      rcases ht : inner.max_size_time with _ | mt <;>
        rcases hh : (inner.queue.filterMap DataQueueItem.timestamp).head? with _ | t0 <;>
          rcases he : item.timestamp_end with _ | te0 <;>
            simp [Legacy.DataQueue.push, hb, hy, ht, hh, he, Nat.not_le, Nat.lt_iff_add_one_le] <;>
              split_ifs <;> simp_all <;> omega

/-- Claim C2, amended: the legacy `DataQueue::push` fails iff some configured
limit would be reached or exceeded — after admission the item-count and byte
totals must stay strictly below their configured limits and the time span
strictly below the time limit (when both timestamps exist); equivalently a push
that would bring a running total exactly to a configured limit is rejected.
Consequently, with max-size-buffers = N, every successful push leaves the
item-count total at most N - 1, so the N-th undrained single-buffer push
already fails and, in the buffers=2 scenario, only buffer A enters directly. -/
theorem C2_push_rejects_at_limit (inner : Legacy.DataQueueInner) (item : DataQueueItem) :
    ((Legacy.DataQueue.push inner item).1 = true ↔
      (∀ m, inner.max_size_buffers = some m →
        u32 (inner.cur_size_buffers + item.size.1) < m) ∧
      (∀ m, inner.max_size_bytes = some m →
        u32 (inner.cur_size_bytes + item.size.2) < m) ∧
      (∀ m t te, inner.max_size_time = some m →
        (inner.queue.filterMap DataQueueItem.timestamp).head? = some t →
        item.timestamp_end = some te →
        (if te < t then t - te else te - t) < m)) ∧
    (∀ N, inner.max_size_buffers = some N → (Legacy.DataQueue.push inner item).1 = true →
      (Legacy.DataQueue.push inner item).2.cur_size_buffers < N) := by
  refine ⟨push_true_iff inner item, ?_⟩
  intro N hN hsucc
  rw [push_true_cur_size_buffers inner item hsucc]
  exact ((push_true_iff inner item).mp hsucc).1 N hN

/-- Claim C3, counterexample: a freshly created, empty legacy queue with
max-size-bytes 5 rejects a 10-byte buffer — there is no empty-queue exception
in `DataQueue::push`. -/
theorem C3_empty_queue_rejects_counterexample :
    (Legacy.DataQueue.new 0 5 0).queue = [] ∧
    (Legacy.DataQueue.push (Legacy.DataQueue.new 0 5 0) bufTen).1 = false := by
  decide

/-- Claim C3, amended: emptiness grants no exception. On a freshly created,
empty legacy queue, a push succeeds iff the item alone stays strictly below
every configured item-count and byte limit (the time check never fires on an
empty queue); in particular an empty queue rejects any item that alone reaches
a configured limit. -/
theorem C3_empty_queue_no_exception (mb mby mt : Nat) (item : DataQueueItem) :
    (Legacy.DataQueue.push (Legacy.DataQueue.new mb mby mt) item).1 = true ↔
      (mb = 0 ∨ item.size.1 < mb) ∧ (mby = 0 ∨ item.size.2 < mby) := by
  have hsz := DataQueueItem.size_lt_u32 item
  have h1 := hsz.1
  have h2 := hsz.2
  rw [push_true_iff]
  constructor
  · rintro ⟨hb, hy, -⟩
    refine ⟨?_, ?_⟩
    · rcases Nat.eq_zero_or_pos mb with h | h
      · exact Or.inl h
      · refine Or.inr ?_
        have hb2 := hb mb (by simp [Legacy.DataQueue.new, Nat.pos_iff_ne_zero.mp h])
        simp only [Legacy.DataQueue.new] at hb2
        unfold u32 at hb2
        omega
    · rcases Nat.eq_zero_or_pos mby with h | h
      · exact Or.inl h
      · refine Or.inr ?_
        have hy2 := hy mby (by simp [Legacy.DataQueue.new, Nat.pos_iff_ne_zero.mp h])
        simp only [Legacy.DataQueue.new] at hy2
        unfold u32 at hy2
        omega
  · rintro ⟨hb, hy⟩
    refine ⟨?_, ?_, ?_⟩
    · intro m hm
      simp only [Legacy.DataQueue.new] at hm ⊢
      split_ifs at hm with h0
      all_goals simp_all
      all_goals unfold u32
      all_goals omega
    · intro m hm
      simp only [Legacy.DataQueue.new] at hm ⊢
      split_ifs at hm with h0
      all_goals simp_all
      all_goals unfold u32
      all_goals omega
    · intro m t te hm ht hte
      simp only [Legacy.DataQueue.new] at ht
      simp at ht

/-- Claim C4: confirmed. `poll` yields the stop signal (`readyNone`) exactly in
the shut-down state; a paused (`Scheduled`) queue and a running empty queue
instead suspend the caller (`notReady`, registering the wake-up handle); a
running non-empty queue removes and returns the oldest item and subtracts its
contributions from the running totals. -/
theorem C4_poll_none_only_on_stop (inner : Legacy.DataQueueInner) :
    (∀ r s2, Legacy.DataQueue.poll inner = some (r, s2) →
      (r = Legacy.PollResult.readyNone ↔ inner.state = Legacy.DataQueueState.Shutdown)) ∧
    (inner.state = Legacy.DataQueueState.Scheduled →
      Legacy.DataQueue.poll inner
        = some (.notReady, { inner with current_task := true })) ∧
    (inner.state = Legacy.DataQueueState.Running → inner.queue = [] →
      Legacy.DataQueue.poll inner
        = some (.notReady, { inner with current_task := true })) ∧
    (∀ i rest, inner.state = Legacy.DataQueueState.Running → inner.queue = i :: rest →
      Legacy.DataQueue.poll inner
        = some (.readyItem i,
            { inner with
              queue := rest,
              cur_size_buffers := inner.cur_size_buffers - i.size.1,
              cur_size_bytes := inner.cur_size_bytes - i.size.2,
              current_task_in := false })) := by
  refine ⟨?_, ?_, ?_, ?_⟩
  · intro r s2 h
    rw [Legacy.DataQueue.poll] at h
    rcases hst : inner.state
    case Unscheduled => simp [hst] at h
    case Scheduled =>
      simp [hst] at h
      simp [hst, ← h.1]
    case Running =>
      rcases hq : inner.queue with _ | ⟨i, rest⟩ <;>
        simp [hst, hq] at h <;> simp [hst, ← h.1]
    case Shutdown =>
      simp [hst] at h
      simp [hst, ← h.1]
  · intro hst
    rw [Legacy.DataQueue.poll]
    simp [hst]
  · intro hst hq
    rw [Legacy.DataQueue.poll]
    simp [hst, hq]
  · intro i rest hst hq
    rw [Legacy.DataQueue.poll]
    simp [hst, hq]

/-- Claim C5: confirmed. The legacy `DataQueue::clear` empties the queue, and
the events stored on the source pad are exactly the queued sticky events that
are neither segment nor end-of-stream, in queue order; every other item
(buffers, buffer lists, non-sticky events, segment and end-of-stream events) is
dropped. -/
theorem C5_clear_forwards_sticky (inner : Legacy.DataQueueInner) (src_pad : List Ev) :
    (Legacy.DataQueue.clear inner src_pad).1 = { inner with queue := [] } ∧
    (Legacy.DataQueue.clear inner src_pad).2
      = src_pad ++ inner.queue.filterMap stickySurvivor := by
  exact ⟨rfl, clear_foldl_filterMap inner.queue src_pad⟩

/-- Claim C9: the code violates the totals invariant. Pushing one 10-byte
buffer into a fresh legacy queue limited to two buffers and clearing leaves an
empty queue whose running totals still read one item and ten bytes rather than
zero; as a consequence the very next single-buffer push is rejected even though
the queue is empty. -/
theorem C9_clear_keeps_stale_totals :
    c9_state.queue = [] ∧
    c9_state.cur_size_buffers = 1 ∧
    c9_state.cur_size_bytes = 10 ∧
    (Legacy.DataQueue.push c9_state (DataQueueItem.buffer ⟨4, none, none⟩)).1 = false := by
  decide

/-- Claim C1: the code violates the claim. With max-size-buffers 1, the bounded
queue already holding one buffer and the scheduled pending queue holding the
buffers A then B, one overflow drain cycle pushes both (both pushes fail),
re-installs only the LAST failed buffer B and loses A: afterwards the pending
queue holds exactly B and the bounded queue is unchanged, so A is in neither
structure and can never reach downstream — an admitted item is dropped and the
claimed re-install of the failed item at the front does not preserve the
earlier failed item. -/
theorem C1_drain_cycle_drops_overflow_item :
    (TS.Queue.pending_drain_iter c1_state).2 = TS.DrainStep.waiting ∧
    ((TS.Queue.pending_drain_iter c1_state).1.pending_queue.map TS.PendingQueue.items)
      = some [c1_bufB] ∧
    ((TS.Queue.pending_drain_iter c1_state).1.dataqueue.map TS.DataQueue.queue)
      = some [c1_bufQ] := by
  decide

/-- `Queue::queue_until_full` never sets the scheduled flag: if the pending
queue it is given is absent or unscheduled, the pending queue it returns is
absent or unscheduled as well. -/
theorem queue_until_full_keeps_unscheduled (dq : TS.DataQueue)
    (pqo : Option TS.PendingQueue) (item : DataQueueItem)
    (h : ∀ pq, pqo = some pq → pq.scheduled = false) :
    ∀ pq, (TS.Queue.queue_until_full dq pqo item).2.1 = some pq → pq.scheduled = false := by
  intro pq hpq
  rcases pqo with _ | p
  · rw [TS.Queue.queue_until_full] at hpq
    rcases hp : TS.DataQueue.push dq item with dq2 | e <;> simp [hp] at hpq
  · have hp := h p rfl
    rw [TS.Queue.queue_until_full] at hpq
    simp only [hp, Bool.false_eq_true, if_false] at hpq
    rcases hd : (TS.drainPendingItems dq p.items).2 with _ | failed
    · simp only [hd] at hpq
      rcases hp2 : TS.DataQueue.push (TS.drainPendingItems dq p.items).1 item with dq2 | e <;>
        simp [hp2] at hpq <;> simp [← hpq, hp]
    · simp only [hd] at hpq
      simp at hpq
      simp [← hpq, hp]

/-- Claim C6: confirmed. When `enqueue_item` finds the bounded queue full (the
`queue_until_full` attempt hands the item back) and no overflow drain is
scheduled: a control event that is not end-of-stream is appended to the pending
queue, the drain stays unscheduled and the call returns immediately with the
last forwarding result; a buffer, a buffer list or an end-of-stream event is
appended, the drain is scheduled in this very call and the caller blocks. -/
theorem C6_full_queue_scheduling (s : TS.Queue) (dq : TS.DataQueue) (item : DataQueueItem)
    (hdq : s.dataqueue = some dq)
    (hns : ∀ pq, s.pending_queue = some pq → pq.scheduled = false)
    (hfull : (TS.Queue.queue_until_full dq s.pending_queue item).2.2 = some item) :
    (∀ ev, item = DataQueueItem.event ev → ev.etype ≠ EvType.eos →
      (TS.Queue.enqueue_item s item).2 = TS.EnqueueOutcome.immediate s.last_res ∧
      ∃ pq, (TS.Queue.enqueue_item s item).1.pending_queue = some pq ∧
        pq.scheduled = false ∧ pq.items.getLast? = some item) ∧
    ((∀ ev, item = DataQueueItem.event ev → ev.etype = EvType.eos) →
      (TS.Queue.enqueue_item s item).2 = TS.EnqueueOutcome.blocked ∧
      ∃ pq, (TS.Queue.enqueue_item s item).1.pending_queue = some pq ∧
        pq.scheduled = true ∧ pq.items.getLast? = some item) := by
  rcases hr : TS.Queue.queue_until_full dq s.pending_queue item with ⟨dq2, pq2, fo⟩
  rw [hr] at hfull
  simp only at hfull
  subst hfull
  have hunsch : ∀ pq, pq2 = some pq → pq.scheduled = false := by
    intro pq hpq
    refine queue_until_full_keeps_unscheduled dq s.pending_queue item hns pq ?_
    rw [hr]
    exact hpq
  have hcond : (pq2.map (fun pq => !pq.scheduled)).getD true = true := by
    rcases pq2 with _ | pq
    · rfl
    · simp [hunsch pq rfl]
  constructor
  · rintro ev rfl hne
    have hsched : TS.scheduleNow (DataQueueItem.event ev) = false := by
      simp [TS.scheduleNow, hne]
    simp only [TS.Queue.enqueue_item, hdq, hr, hcond, if_true, hsched, Bool.false_eq_true,
      if_false]
    rcases pq2 with _ | pq <;>
      simp [List.getLast?_concat, hunsch]
  · intro hk
    have hsched : TS.scheduleNow item = true := by
      rcases item with b | l | ev
      · rfl
      · rfl
      · simp [TS.scheduleNow, hk ev rfl]
    simp only [TS.Queue.enqueue_item, hdq, hr, hcond, if_true, hsched]
    rcases pq2 with _ | pq <;>
      simp [List.getLast?_concat]

/-- Witness for the full-queue scheduling theorem: with the concrete full
bounded queue and a stuck pending buffer, a sticky caps event is appended to
the overflow, stays unscheduled and the call returns immediately. -/
theorem C6_witness :
    (TS.Queue.enqueue_item c6_state c6_event).2
        = TS.EnqueueOutcome.immediate c6_state.last_res ∧
    ∃ pq, (TS.Queue.enqueue_item c6_state c6_event).1.pending_queue = some pq ∧
      pq.scheduled = false ∧ pq.items.getLast? = some c6_event :=
  (C6_full_queue_scheduling c6_state c1_dataqueue c6_event rfl
      (fun pq h => by injection h with h2; rw [← h2])
      (by decide)).1 ⟨true, EvType.caps⟩ rfl (by decide)

/-- Claim C7: confirmed. The forwarding-outcome handling of the drain task
records the outcome itself as the last forwarding result in every case, and:
success is the only outcome that lets the loop continue; end-of-stream is the
only outcome that pushes an end-of-stream event downstream; exactly the errors
other than flushing and end-of-stream post an element-level fatal stream
error. -/
theorem C7_forwarding_outcome_map (s : TS.Queue) (res : TS.FlowRes) :
    (TS.Queue.handle_item_res s res).queue.last_res = res ∧
    ((TS.Queue.handle_item_res s res).cont = true ↔ res = TS.FlowRes.ok) ∧
    ((TS.Queue.handle_item_res s res).pushed_eos = true ↔
      res = TS.FlowRes.err TS.FlowErr.eos) ∧
    ((TS.Queue.handle_item_res s res).element_error = true ↔
      ∃ c, res = TS.FlowRes.err (TS.FlowErr.other c)) ∧
    (TS.Queue.handle_item_res s res).queue.dataqueue = s.dataqueue ∧
    (TS.Queue.handle_item_res s res).queue.pending_queue = s.pending_queue := by
  rcases res with _ | e
  · simp [TS.Queue.handle_item_res]
  · rcases e with _ | _ | c <;> simp [TS.Queue.handle_item_res]

/-- Claim C8: confirmed (the bounded-queue operations it composes are modelled
from the spec). `stop` records flushing as the last forwarding result, stops
the drain task, leaves the bounded queue (when present) emptied and shut down,
drops the pending queue together with any registered space-available sender —
so the next resumption of a suspended drain cycle returns at once instead of
re-suspending, unblocking any suspended admission call — and a second `stop`
changes nothing. -/
theorem C8_stop_flushes_unblocks_idempotent (s : TS.Queue) :
    (TS.Queue.stop s).last_res = TS.FlowRes.err TS.FlowErr.flushing ∧
    (TS.Queue.stop s).task_running = false ∧
    (TS.Queue.stop s).pending_queue = none ∧
    (∀ dq, s.dataqueue = some dq →
      ∃ dq2, (TS.Queue.stop s).dataqueue = some dq2 ∧
        dq2.queue = [] ∧ dq2.st = TS.MDQState.stopped) ∧
    TS.Queue.pending_drain_iter (TS.Queue.stop s)
      = (TS.Queue.stop s, TS.DrainStep.returned) ∧
    TS.Queue.stop (TS.Queue.stop s) = TS.Queue.stop s := by
  refine ⟨rfl, rfl, rfl, ?_, ?_, ?_⟩
  · intro dq hdq
    exact ⟨((dq.pause).clear).stop, by simp [TS.Queue.stop, hdq], rfl, rfl⟩
  · rcases hdq : s.dataqueue with _ | dq <;>
      simp [TS.Queue.pending_drain_iter, TS.Queue.stop, hdq]
  · rcases hdq : s.dataqueue with _ | dq
    · simp [TS.Queue.stop, hdq]
    · simp [TS.Queue.stop, hdq, TS.DataQueue.pause, TS.DataQueue.clear, TS.DataQueue.stop]

/-- Claim C10: confirmed. With no bounded queue present (before prepare or
after unprepare), `enqueue_item` returns the fatal error outcome at once and
the element state — in particular the last forwarding result and the pending
queue — is untouched. -/
theorem C10_enqueue_without_queue_errors (s : TS.Queue) (item : DataQueueItem)
    (h : s.dataqueue = none) :
    TS.Queue.enqueue_item s item = (s, TS.EnqueueOutcome.noQueue) := by
  simp [TS.Queue.enqueue_item, h]

/-- Witness for the no-queue theorem at a concrete unprepared state. -/
theorem C10_witness :
    TS.Queue.enqueue_item c10_state bufTen = (c10_state, TS.EnqueueOutcome.noQueue) :=
  C10_enqueue_without_queue_errors c10_state bufTen rfl
